import Mathlib

/-!
# Verification of the retrieval-and-grounding pipeline of `my-app-companion`

Shallow embedding of the core of the repository: the chunker and ingestion
pipelines (`supabase/functions/process-document/index.ts`, the scrape handler
bundled with `supabase/functions/classify-query/index.ts`, and
`supabase/functions/indian-kanoon-search/index.ts`), the retrieval layer
(`searchDocumentChunks` in `supabase/functions/generate-response/index.ts`,
the `match_document_chunks` SQL function of the migration file, and
`supabase/functions/search-documents/index.ts`), and the grounded response
generator (`supabase/functions/generate-response/index.ts`).

Strings are modelled as Lean `String`s (the inputs of interest are ASCII, so
JavaScript UTF-16 lengths coincide with character counts), JavaScript array
indices as `Nat`, fallible external calls as explicit outcome parameters, and
thrown JavaScript exceptions as explicit control flow mirroring the
`try`/`catch` structure of the handlers.
-/

namespace MyAppCompanion

/-! ## Chunker

`chunkText` from `supabase/functions/process-document/index.ts` lines 22-63.
Character-identical copies of the function appear in the scrape handler and in
`indian-kanoon-search/index.ts`; a single embedding covers all three.
-/

/-- `text.replace(/\r\n/g, '\n')`: replace every CRLF pair by LF. -/
def replCRLF : List Char → List Char
  | [] => []
  | '\r' :: '\n' :: rest => '\n' :: replCRLF rest
  | c :: rest => c :: replCRLF rest

/-- `text.replace(/\n{3,}/g, '\n\n')`: cap every run of consecutive newlines
at two.  `run` counts the newlines emitted so far in the current run. -/
def collapseNLGo : List Char → Nat → List Char
  | [], _ => []
  | c :: rest, run =>
    if c = '\n' then
      if run ≥ 2 then collapseNLGo rest (run + 1)
      else '\n' :: collapseNLGo rest (run + 1)
    else c :: collapseNLGo rest 0

def collapseNL (l : List Char) : List Char := collapseNLGo l 0

/-- JavaScript `String.prototype.trim` restricted to the whitespace characters
that occur in this pipeline. -/
def isJsWS (c : Char) : Bool := c = ' ' || c = '\n' || c = '\t' || c = '\r'

def trimChars (l : List Char) : List Char :=
  ((l.dropWhile isJsWS).reverse.dropWhile isJsWS).reverse

/-- The cleaning prelude of `chunkText`:
`text.replace(/\r\n/g,'\n').replace(/\n{3,}/g,'\n\n').trim()`. -/
def cleanText (l : List Char) : List Char := trimChars (collapseNL (replCRLF l))

/-- JavaScript `s.slice(a, b)` for `0 ≤ a ≤ b` (clamped at the end of the
string), the only regime exercised by `chunkText`. -/
def sliceJS (l : List Char) (a b : Nat) : List Char := (l.drop a).take (b - a)

/-- JavaScript `w.lastIndexOf(pat)`: the largest start offset at which `pat`
occurs in `w`, or `-1` when it does not occur. -/
def lastIndexOfSub (w pat : List Char) : Int :=
  ((List.range (w.length + 1)).filter (fun i => pat.isPrefixOf (w.drop i))).foldl
    (fun acc i => max acc (i : Int)) (-1)

/-- The boundary-snapping step of `chunkText`: given the raw candidate end
`end0 = start + chunkSize` (known to be `< t.length`), search the window of
±100 characters for the last paragraph break `"\n\n"`, failing that for the
last sentence terminator `". "`, and snap to just after it when its offset in
the window is strictly positive. -/
def snapEnd (t : List Char) (start end0 : Nat) : Nat :=
  let searchStart := max (end0 - 100) start
  let searchText := sliceJS t searchStart (end0 + 100)
  let paragraphBreak := lastIndexOfSub searchText ['\n', '\n']
  if paragraphBreak > 0 then
    searchStart + paragraphBreak.toNat + 2
  else
    let sentenceEnd := lastIndexOfSub searchText ['.', ' ']
    if sentenceEnd > 0 then searchStart + sentenceEnd.toNat + 2
    else end0

/-- The `while (start < cleanedText.length)` loop of `chunkText`, with explicit
fuel standing in for the loop counter (the repository only calls `chunkText`
with `chunkSize = 1000`, `overlap = 200`, for which each iteration advances
`start` by at least 703, so `t.length + 1` units of fuel always suffice). -/
def chunkLoop (t : List Char) (chunkSize overlap : Nat) : Nat → Nat → List (List Char)
  | 0, _ => []
  | fuel + 1, start =>
    if start < t.length then
      let end0 := start + chunkSize
      let e := if end0 < t.length then snapEnd t start end0 else end0
      let chunk := trimChars (sliceJS t start e)
      let rest :=
        if e - overlap ≥ t.length then []
        else chunkLoop t chunkSize overlap fuel (e - overlap)
      if chunk.length > 50 then chunk :: rest else rest
    else []

/-- `chunkText(text, chunkSize = 1000, overlap = 200)` from
`process-document/index.ts` lines 22-63. -/
def chunkText (text : String) (chunkSize overlap : Nat) : List String :=
  let cleaned := cleanText text.toList
  (chunkLoop cleaned chunkSize overlap (cleaned.length + 1) 0).map
    (fun l => String.mk l)

/-! ### JavaScript string primitives

The remaining handlers use a handful of JavaScript string methods; they are
embedded as character-list computations (`trim`, `toLowerCase`,
`toUpperCase`, `startsWith`, `endsWith`, `slice`, `split(/\s+/)`) so that
every definition in this development evaluates by kernel reduction. -/

/-- JavaScript `s.trim()` (ASCII whitespace). -/
def trimJS (s : String) : String := String.mk (trimChars s.toList)

/-- JavaScript `s.toLowerCase()` (ASCII letters). -/
def toLowerJS (s : String) : String := String.mk (s.toList.map Char.toLower)

/-- JavaScript `s.toUpperCase()` (ASCII letters). -/
def toUpperJS (s : String) : String := String.mk (s.toList.map Char.toUpper)

/-- JavaScript `s.startsWith(p)`. -/
def startsWithJS (s p : String) : Bool := p.toList.isPrefixOf s.toList

/-- JavaScript `s.endsWith(p)`. -/
def endsWithJS (s p : String) : Bool := p.toList.isSuffixOf s.toList

/-- JavaScript `s.slice(0, n)`. -/
def takeJS (s : String) (n : Nat) : String := String.mk (s.toList.take n)

def splitWSAux : List Char → List Char → List String
  | [], acc => [String.mk acc.reverse]
  | c :: rest, acc =>
    if c.isWhitespace then String.mk acc.reverse :: splitWSAux rest []
    else splitWSAux rest (c :: acc)

/-- JavaScript `s.split(/\s+/)` up to interior empty fragments (a run of
whitespace yields empty fragments here where the regex split yields none;
the sole consumer filters to fragments longer than 2 characters, on which
the two agree). -/
def splitWSJS (s : String) : List String := splitWSAux s.toList []

/-! ## Ingestion pipeline

The upload path is the `serve` handler of `process-document/index.ts`
(lines 218-341, after authentication and ownership checks); the web-scrape
path is the handler bundled with `classify-query/index.ts`; the
external-search path is the per-candidate ingestion loop of
`indian-kanoon-search/index.ts`.  External calls (storage download, the
embedding endpoint, datastore inserts) are modelled as explicit outcome
parameters.
-/

/-- A row of the `document_chunks` table as built by the ingestion handlers. -/
structure StoredChunk where
  document_id : Nat
  user_id : Nat
  content : String
  chunk_index : Nat
  hasEmbedding : Bool
  deriving Repr, DecidableEq

/-- Terminal outcome of one ingestion request. -/
inductive IngestOutcome where
  | ok (chunksProcessed : Nat)
  | err (httpStatus : Nat) (code : String)
  deriving Repr, DecidableEq

/-- Observable effects of one ingestion run: the sequence of `status` values
written to the `documents` row, the chunk rows actually persisted, and the
HTTP-level outcome. -/
structure IngestRun where
  statusWrites : List String
  persisted : List StoredChunk
  outcome : IngestOutcome
  deriving Repr, DecidableEq

/-- The embedding loop of `process-document/index.ts` lines 263-286: for each
chunk, call the embedding endpoint; on success push a record carrying the
chunk's position `i` as `chunk_index`; on failure log and continue (the chunk
is skipped entirely). `embedFails i` tells whether the call for chunk `i`
fails. -/
def embedChunkRecords (docId uid : Nat) (chunks : List String)
    (embedFails : Nat → Bool) : List StoredChunk :=
  chunks.enum.filterMap (fun p =>
    if embedFails p.1 then none
    else some { document_id := docId, user_id := uid, content := p.2,
                chunk_index := p.1, hasEmbedding := true })

/-- The batched insert loop of `process-document/index.ts` lines 300-312:
insert the records `batchSize` at a time; the first failing batch throws,
leaving the earlier batches persisted and none of the later ones.
`insertFails b` tells whether the `b`-th batch insert errors.  The model
walks the records one at a time carrying the current batch number `b` and the
position `i` within the batch: a batch is decided at its first record, and on
success all its records are persisted — record-for-record the same rows and
the same success flag as the sliced loop of the source.  Returns the
persisted rows and whether every batch succeeded. -/
def insertBatchesStrictGo (batchSize : Nat) (insertFails : Nat → Bool) :
    List StoredChunk → Nat → Nat → List StoredChunk × Bool
  | [], _, _ => ([], true)
  | r :: rest, b, i =>
    if i = 0 && insertFails b then ([], false)
    else if i + 1 = batchSize then
      (r :: (insertBatchesStrictGo batchSize insertFails rest (b + 1) 0).1,
        (insertBatchesStrictGo batchSize insertFails rest (b + 1) 0).2)
    else
      (r :: (insertBatchesStrictGo batchSize insertFails rest b (i + 1)).1,
        (insertBatchesStrictGo batchSize insertFails rest b (i + 1)).2)

def insertBatchesStrict (batchSize : Nat) (insertFails : Nat → Bool)
    (records : List StoredChunk) : List StoredChunk × Bool :=
  insertBatchesStrictGo batchSize insertFails records 0 0

/-- The batched insert loop of the scrape handler (`classify-query/index.ts`
bundle, lines 490-501): insert records 20 at a time, logging and IGNORING any
insert error, so a failed batch is simply not persisted and the loop
continues with the next batch.  Same per-record walk as
`insertBatchesStrictGo`. -/
def insertBatchesLossyGo (batchSize : Nat) (insertFails : Nat → Bool) :
    List StoredChunk → Nat → Nat → List StoredChunk
  | [], _, _ => []
  | r :: rest, b, i =>
    if i + 1 = batchSize then
      if insertFails b then insertBatchesLossyGo batchSize insertFails rest (b + 1) 0
      else r :: insertBatchesLossyGo batchSize insertFails rest (b + 1) 0
    else
      if insertFails b then insertBatchesLossyGo batchSize insertFails rest b (i + 1)
      else r :: insertBatchesLossyGo batchSize insertFails rest b (i + 1)

def insertBatchesLossy (batchSize : Nat) (insertFails : Nat → Bool)
    (records : List StoredChunk) : List StoredChunk :=
  insertBatchesLossyGo batchSize insertFails records 0 0

/-- The upload-path core of the `process-document` handler, from the
`status: "processing"` update (line 222) to the terminal status update.
`downloadOk` is the storage download outcome and `extractedText` the result of
`extractTextFromPdf` on the downloaded bytes (PDF byte-stream extraction is an
acknowledged best-effort heuristic; the claims under study quantify over its
output, so it enters the model as a parameter). -/
def processDocumentCore (docId uid : Nat) (downloadOk : Bool)
    (extractedText : String) (embedFails : Nat → Bool)
    (insertFails : Nat → Bool) : IngestRun :=
  if ¬ downloadOk then
    { statusWrites := ["processing", "failed"], persisted := [],
      outcome := .err 500 "PROCESSING_ERROR" }
  else if extractedText.length < 100 then
    { statusWrites := ["processing", "failed"], persisted := [],
      outcome := .err 422 "EXTRACTION_FAILED" }
  else
    let chunks := chunkText extractedText 1000 200
    let chunkRecords := embedChunkRecords docId uid chunks embedFails
    if chunkRecords = [] then
      { statusWrites := ["processing", "failed"], persisted := [],
        outcome := .err 500 "PROCESSING_FAILED" }
    else
      let ins := insertBatchesStrict 50 insertFails chunkRecords
      if ins.2 then
        { statusWrites := ["processing", "processed"], persisted := ins.1,
          outcome := .ok chunkRecords.length }
      else
        { statusWrites := ["processing", "failed"], persisted := ins.1,
          outcome := .err 500 "PROCESSING_ERROR" }

/-- The upload flow creates the `documents` row with `status: "pending"`
(`src/components/chat/ChatSidebar.tsx` line 385; also the column default in
the migration) before invoking `process-document`, so the full lifecycle trace
is `"pending"` followed by the handler's status writes. -/
def uploadStatusTrace (docId uid : Nat) (downloadOk : Bool)
    (extractedText : String) (embedFails : Nat → Bool)
    (insertFails : Nat → Bool) : List String :=
  "pending" ::
    (processDocumentCore docId uid downloadOk extractedText embedFails
      insertFails).statusWrites

/-! ### Web-scrape ingestion (`scrape-legal-site` handler) -/

/-- `ALLOWED_DOMAINS` from the scrape handler. -/
def ALLOWED_DOMAINS : List String :=
  ["indiacode.nic.in", "cbic.gov.in", "gst.gov.in", "incometaxindia.gov.in",
   "mca.gov.in", "legislative.gov.in", "doj.gov.in", "egazette.nic.in",
   "lawmin.gov.in"]

def isSchemeChar (c : Char) : Bool :=
  c.isAlpha || c.isDigit || c = '+' || c = '-' || c = '.'

def isHostEnd (c : Char) : Bool :=
  c = '/' || c = ':' || c = '?' || c = '#'

/-- Model of the platform `new URL(url)` constructor (WHATWG URL) restricted
to what `isAllowedDomain` consumes: parsing succeeds exactly when the string
starts with a scheme (a letter followed by letters, digits, `+`, `-`, `.`)
and a colon; the hostname is the lower-cased text between a following `//`
and the next `/`, `:`, `?` or `#`, and is empty for non-hierarchical URLs. -/
def parseURLHostname (url : String) : Option String :=
  match url.toList with
  | [] => none
  | c :: rest =>
    if ¬ c.isAlpha then none
    else
      let afterScheme := rest.dropWhile isSchemeChar
      match afterScheme with
      | ':' :: r =>
        match r with
        | '/' :: '/' :: h =>
          some (String.mk ((h.takeWhile (fun x => ¬ isHostEnd x)).map Char.toLower))
        | _ => some ""
      | _ => none

/-- `isAllowedDomain` from the scrape handler: parse the URL; on parse failure
return `false`; otherwise accept exact allow-listed hostnames and their
subdomains. -/
def isAllowedDomain (url : String) : Bool :=
  match parseURLHostname url with
  | none => false
  | some h =>
    ALLOWED_DOMAINS.any (fun domain => h = domain || endsWithJS h ("." ++ domain))

/-- The scheme-prefixing step of the scrape handler (lines 375-378): trim the
raw URL and prepend `https://` unless it already starts with `http://` or
`https://`. -/
def formatScrapeUrl (url : String) : String :=
  let f := trimJS url
  if ¬ (startsWithJS f "http://") && ¬ (startsWithJS f "https://") then
    "https://" ++ f
  else f

/-- A chunk record without embedding, as built by the scrape and
external-search handlers. -/
def plainChunkRecord (docId uid : Nat) (p : Nat × String) : StoredChunk :=
  { document_id := docId, user_id := uid, content := p.2,
    chunk_index := p.1, hasEmbedding := false }

/-- Observable effects of one scrape request. -/
structure ScrapeRun where
  /-- `some msg` when the request was rejected before creating any document. -/
  rejected : Option String
  /-- whether the Firecrawl scrape fetch was issued. -/
  fetched : Bool
  /-- `status` values written to the created `documents` row (empty when no
  document was created). -/
  statusWrites : List String
  persisted : List StoredChunk
  outcome : IngestOutcome
  deriving Repr, DecidableEq

/-- The `scrape-legal-site` handler (bundled in `classify-query/index.ts`),
after JSON parsing.  `authOk` is the token verification outcome, `scraped`
the Firecrawl result (`none` for a failed scrape, otherwise the markdown
content), `docInsertOk` the `documents` insert outcome, and `insertFails b`
the outcome of the `b`-th chunk batch insert.  The created document starts
at `status: "processing"`; after the lossy batch loop the handler
unconditionally updates it to `"processed"`. -/
def scrapeLegalSite (docId uid : Nat) (url : String) (authOk : Bool)
    (scraped : Option String) (docInsertOk : Bool)
    (insertFails : Nat → Bool) : ScrapeRun :=
  if url = "" then
    { rejected := some "URL is required", fetched := false, statusWrites := [],
      persisted := [], outcome := .err 400 "" }
  else if ¬ isAllowedDomain url then
    { rejected := some "Only official government legal sites are allowed for scraping to ensure data accuracy",
      fetched := false, statusWrites := [], persisted := [],
      outcome := .err 400 "" }
  else if ¬ authOk then
    { rejected := some "Invalid authentication", fetched := false,
      statusWrites := [], persisted := [], outcome := .err 401 "" }
  else
    match scraped with
    | none =>
      { rejected := none, fetched := true, statusWrites := [], persisted := [],
        outcome := .err 400 "" }
    | some content =>
      if content.length < 100 then
        { rejected := none, fetched := true, statusWrites := [],
          persisted := [], outcome := .err 400 "" }
      else if ¬ docInsertOk then
        { rejected := none, fetched := true, statusWrites := ["processing"],
          persisted := [], outcome := .err 500 "" }
      else
        let chunks := chunkText content 1000 200
        let chunkRecords := chunks.enum.map (plainChunkRecord docId uid)
        if chunkRecords = [] then
          { rejected := none, fetched := true,
            statusWrites := ["processing", "failed"], persisted := [],
            outcome := .err 500 "" }
        else
          { rejected := none, fetched := true,
            statusWrites := ["processing", "processed"],
            persisted := insertBatchesLossy 20 insertFails chunkRecords,
            outcome := .ok chunkRecords.length }

/-! ### External-search ingestion (`indian-kanoon-search` handler) -/

/-- The per-candidate ingestion of `indian-kanoon-search/index.ts`
(lines 161-245): documents whose fetched full text is shorter than 100
characters are skipped before any row is created; otherwise a `documents`
row is created at `status: "processing"`, the text is chunked (no
embeddings), and when at least one chunk record exists a single insert is
issued — success updates the status to `"processed"`, failure to
`"failed"`.  With zero chunk records no further status write happens, so
the row is left at `"processing"`. -/
def kanoonIngestDoc (docId uid : Nat) (fullText : String)
    (docInsertOk insertOk : Bool) : IngestRun :=
  if fullText.length < 100 then
    { statusWrites := [], persisted := [], outcome := .err 0 "skipped" }
  else if ¬ docInsertOk then
    { statusWrites := [], persisted := [], outcome := .err 0 "skipped" }
  else
    let chunks := chunkText fullText 1000 200
    let chunkRecords := chunks.enum.map (plainChunkRecord docId uid)
    if chunkRecords = [] then
      { statusWrites := ["processing"], persisted := [],
        outcome := .err 0 "no chunks" }
    else if insertOk then
      { statusWrites := ["processing", "processed"], persisted := chunkRecords,
        outcome := .ok chunkRecords.length }
    else
      { statusWrites := ["processing", "failed"], persisted := [],
        outcome := .err 0 "insert failed" }

/-! ## Retrieval

The vector mode is the SQL function `match_document_chunks` of the migration
file (invoked only by `search-documents/index.ts`); the full-text and ILIKE
modes are `searchDocumentChunks` in `generate-response/index.ts`
(lines 66-134).
-/

/-- A row of the `document_chunks` table as seen by retrieval.  Embedding
vectors are rational lists (the pgvector column holds 1536 floats; the claims
under study depend only on equalities and comparisons of similarity scores,
which exact rationals model without rounding noise). -/
structure ChunkRow where
  id : Nat
  document_id : Nat
  user_id : Nat
  content : String
  chunk_index : Nat
  embedding : Option (List ℚ)
  deriving Repr, DecidableEq

/-- A row of the `documents` table as seen by retrieval. -/
structure DocRow where
  id : Nat
  user_id : Nat
  filename : String
  deriving Repr, DecidableEq

/-- The similarity computed by `match_document_chunks`:
`1 - (dc.embedding <=> query_embedding)`.  The pgvector cosine-distance
operator `<=>` is a datastore capability; it enters the model as the
parameter `dist`. -/
def rowSimilarity (dist : List ℚ → List ℚ → ℚ) (queryEmbedding : List ℚ)
    (r : ChunkRow) : ℚ :=
  1 - dist (r.embedding.getD []) queryEmbedding

/-- The `WHERE` clause of `match_document_chunks`:
`dc.user_id = p_user_id AND dc.embedding IS NOT NULL AND
 1 - (dc.embedding <=> query_embedding) > match_threshold`. -/
def matchQualifies (dist : List ℚ → List ℚ → ℚ) (queryEmbedding : List ℚ)
    (matchThreshold : ℚ) (pUserId : Nat) (r : ChunkRow) : Bool :=
  r.user_id = pUserId && r.embedding.isSome &&
    decide (rowSimilarity dist queryEmbedding r > matchThreshold)

/-- Result relation of `match_document_chunks`: `res` is a possible result of
`SELECT ... WHERE <matchQualifies> ORDER BY dc.embedding <=> query_embedding
LIMIT match_count` over table `db`.  SQL fixes the multiset of qualifying
rows and the ordering by distance (equivalently, descending similarity) but
leaves the relative order of equal-distance rows unspecified, so the result
is any `match_count`-prefix of any similarity-sorted permutation of the
qualifying rows. -/
def isMatchResult (dist : List ℚ → List ℚ → ℚ) (db : List ChunkRow)
    (queryEmbedding : List ℚ) (matchThreshold : ℚ) (matchCount : Nat)
    (pUserId : Nat) (res : List ChunkRow) : Prop :=
  ∃ l : List ChunkRow,
    l.Perm (db.filter (matchQualifies dist queryEmbedding matchThreshold pUserId)) ∧
    l.Pairwise (fun a b =>
      rowSimilarity dist queryEmbedding a ≥ rowSimilarity dist queryEmbedding b) ∧
    res = l.take matchCount

/-- `match_threshold float DEFAULT 0.7` in the SQL function, and
`matchThreshold = 0.7` in `search-documents/index.ts` line 104. -/
def matchThresholdDefault : ℚ := 7 / 10

/-- `match_count int DEFAULT 5` in the SQL function, and `matchCount = 5` in
`search-documents/index.ts` line 104. -/
def matchCountDefault : Nat := 5

/-! ### Full-text / ILIKE search (`searchDocumentChunks`) -/

/-- The search-terms construction of `searchDocumentChunks` (lines 73-76):
keep keywords longer than 2 characters, lower-case them and join with
`" | "`. -/
def searchTerms (keywords : List String) : String :=
  String.intercalate " | " ((keywords.filter (fun k => k.length > 2)).map
    (fun k => toLowerJS k))

/-- The full-text query of `searchDocumentChunks` (lines 81-92):
`.eq("user_id", userId).textSearch("content", terms).limit(10)` joined with
`documents!inner`.  The `websearch` tsquery semantics is a datastore
capability, modelled by the predicate `tsMatch terms row`; the inner join
keeps only rows whose parent document exists. -/
def tsQueryRows (db : List ChunkRow) (docs : List DocRow) (userId : Nat)
    (tsMatch : String → ChunkRow → Bool) (terms : String) : List ChunkRow :=
  (db.filter (fun r =>
    r.user_id = userId && tsMatch terms r &&
      (docs.find? (fun d => d.id = r.document_id)).isSome)).take 10

/-- The ILIKE fallback query of `searchDocumentChunks` (lines 98-109):
`.eq("user_id", userId).or(keywords.map(k => content.ilike.%k%)).limit(10)`.
PostgREST parses the `.or(...)` filter string from the raw keywords, so the
disjunction is modelled as an arbitrary row predicate `orFilter` (covering
even keywords that inject extra disjuncts); it is conjoined with the
separate `eq` filter on `user_id`. -/
def ilikeRows (db : List ChunkRow) (docs : List DocRow) (userId : Nat)
    (orFilter : ChunkRow → Bool) : List ChunkRow :=
  (db.filter (fun r =>
    r.user_id = userId && orFilter r &&
      (docs.find? (fun d => d.id = r.document_id)).isSome)).take 10

/-- The chunk shape returned by `searchDocumentChunks` to the generator. -/
structure DocumentChunkOut where
  id : Nat
  document_id : Nat
  content : String
  similarity : ℚ
  document_filename : String
  deriving Repr, DecidableEq

/-- The output mapping of `searchDocumentChunks`: project a selected row,
attach the joined filename (`c.documents?.filename || "Unknown"`) and the
fixed similarity constant of the mode (`0.7` for full-text hits, `0.5` for
ILIKE fallback hits). -/
def toDocumentChunkOut (docs : List DocRow) (similarity : ℚ) (r : ChunkRow) :
    DocumentChunkOut :=
  let fn := ((docs.find? (fun d => d.id = r.document_id)).map
    (fun d => d.filename)).getD ""
  { id := r.id, document_id := r.document_id, content := r.content,
    similarity := similarity,
    document_filename := if fn = "" then "Unknown" else fn }

/-- The rows selected by `searchDocumentChunks` (lines 67-134): empty when the
joined search terms are empty (no datastore call at all); otherwise the
full-text query, replaced by the ILIKE fallback when the full-text query
errors (`tsErr`), and by `[]` when the fallback errors too (`ilikeErr`). -/
def searchDocumentChunksRows (db : List ChunkRow) (docs : List DocRow)
    (userId : Nat) (keywords : List String) (tsMatch : String → ChunkRow → Bool)
    (orFilter : ChunkRow → Bool) (tsErr ilikeErr : Bool) : List ChunkRow :=
  if searchTerms keywords = "" then []
  else if ¬ tsErr then tsQueryRows db docs userId tsMatch (searchTerms keywords)
  else if ilikeErr then []
  else ilikeRows db docs userId orFilter

/-- `searchDocumentChunks` as returned to the generator: the selected rows
mapped to the output shape with the mode's similarity constant. -/
def searchDocumentChunks (db : List ChunkRow) (docs : List DocRow)
    (userId : Nat) (keywords : List String) (tsMatch : String → ChunkRow → Bool)
    (orFilter : ChunkRow → Bool) (tsErr ilikeErr : Bool) :
    List DocumentChunkOut :=
  (searchDocumentChunksRows db docs userId keywords tsMatch orFilter tsErr
    ilikeErr).map
    (toDocumentChunkOut docs (if ¬ tsErr then 7 / 10 else 1 / 2))

/-- The retrieval modes a query-time request can invoke.  `vector` is the
`match_document_chunks` similarity search (reachable only through the
separate `search-documents` endpoint), `textSearch` and `ilike` the two
queries inside `searchDocumentChunks`, `web` the Firecrawl web-search
fallback. -/
inductive SearchMode where
  | vector
  | textSearch
  | ilike
  | web
  deriving Repr, DecidableEq

/-- The datastore calls `searchDocumentChunks` issues, in order: none when the
joined search terms are empty, otherwise the full-text query followed by the
ILIKE fallback exactly when the full-text query errored. -/
def searchDocumentChunksTrace (keywords : List String) (tsErr : Bool) :
    List SearchMode :=
  if searchTerms keywords = "" then []
  else if tsErr then [.textSearch, .ilike] else [.textSearch]

/-- The retrieval calls the generation handler issues (lines 293-316 of
`generate-response/index.ts`): `searchDocumentChunks` first, then the web
search exactly when the local result set is empty. -/
def generationRetrievalTrace (db : List ChunkRow) (docs : List DocRow)
    (userId : Nat) (keywords : List String) (tsMatch : String → ChunkRow → Bool)
    (orFilter : ChunkRow → Bool) (tsErr ilikeErr : Bool) : List SearchMode :=
  searchDocumentChunksTrace keywords tsErr ++
    (if searchDocumentChunks db docs userId keywords tsMatch orFilter tsErr
        ilikeErr = [] then [.web] else [])

/-! ## Grounded response generator

The `serve` handler of `generate-response/index.ts`, after authentication.
The language-model capability enters the model as a function
`llm : List ChatMsg → Option String` returning `choices[0].message.content`
(`none` when that field is missing).
-/

/-- `RULEX_SYSTEM_PROMPT` from `generate-response/index.ts` lines 10-38. -/
def RULEX_SYSTEM_PROMPT : String :=
  "You are ruleX, an AI agent for Indian laws and finance.\n\nROLE:\nProvide accurate information on Indian laws, GST, taxation, and finance.\n\nKNOWLEDGE USAGE:\n• Use ONLY the knowledge provided in the CONTEXT section below.\n• Do NOT use general AI knowledge or assumptions.\n• Do NOT guess or infer missing information.\n\nBEHAVIOR:\n• Answer only when exact, verified information exists in the provided context.\n• Always mention Act name and Section/Rule number when applicable.\n• Keep legal wording accurate and unchanged.\n• Be factual, neutral, and professional.\n• When citing from documents, mention the source document filename.\n\nREFUSAL RULE:\nIf the answer is not clearly available in the provided context, respond ONLY with:\n❌ No official government data is available for this query at the moment.\n\nTONE:\nFormal, precise, and authoritative.\n\nOUTPUT:\n• Clear and concise response\n• Structured sentences\n• No opinions, no advice, no speculation\n• Include source citations when using context"

/-- The fixed refusal sentence of the REFUSAL RULE. -/
def refusalMessage : String :=
  "❌ No official government data is available for this query at the moment."

/-- The line the handler places in the prompt when no context was found
(line 340). -/
def noContextLine : String :=
  "CONTEXT: No verified documents or official web sources found for this query."

/-- `MIN_QUERY_LENGTH` (line 41). -/
def MIN_QUERY_LENGTH : Nat := 3

/-- `MAX_QUERY_LENGTH` (line 42). -/
def MAX_QUERY_LENGTH : Nat := 2000

/-- The classification object of a generation request as it arrives over
JSON: each field may be absent (`none` models a missing field /
JavaScript `undefined`). -/
structure Classification where
  domain : Option String
  queryType : Option String
  confidence : Option String
  keywords : Option (List String)
  deriving Repr, DecidableEq

/-- JavaScript truthiness of an optional string field: present and
nonempty. -/
def jsTruthy (s : Option String) : Bool :=
  match s with
  | none => false
  | some t => t ≠ ""

/-- The classification validation of lines 272-277:
`!classification || !classification.domain || !classification.queryType`
rejects the request; the `keywords` field is not checked. -/
def classificationValid (c : Option Classification) : Bool :=
  match c with
  | none => false
  | some c => jsTruthy c.domain && jsTruthy c.queryType

/-- JavaScript template interpolation of a possibly-`undefined` string. -/
def jsInterp (s : Option String) : String :=
  match s with
  | none => "undefined"
  | some t => t

/-- One chat message. -/
structure ChatMsg where
  role : String
  content : String
  deriving Repr, DecidableEq

/-- One Firecrawl search result as consumed by `searchWebForLegalInfo`. -/
structure WebResult where
  url : String
  markdown : Option String
  title : Option String
  description : Option String
  deriving Repr, DecidableEq

/-- The per-result step of `searchWebForLegalInfo` (lines 185-195): a result
with truthy `markdown` contributes its source-tagged first 2000 characters; a
result with truthy `description` contributes the tagged title/description
pair; any other result is skipped and contributes no source URL. -/
def webResultEntry (r : WebResult) : Option (String × String) :=
  if jsTruthy r.markdown then
    some ("\n\n[Source: " ++ r.url ++ "]\n" ++ takeJS (r.markdown.getD "") 2000,
      r.url)
  else if jsTruthy r.description then
    some ("\n\n[Source: " ++ r.url ++ "]\n" ++ r.title.getD "" ++ "\n" ++
      r.description.getD "", r.url)
  else none

/-- `searchWebForLegalInfo` (lines 137-202): empty content when the Firecrawl
key is not configured, the search call fails (`fetchRes = none`) or no result
contributes; otherwise the concatenated tagged snippets and their source
URLs. -/
def searchWebForLegalInfo (firecrawlConfigured : Bool)
    (fetchRes : Option (List WebResult)) : String × List String :=
  if ¬ firecrawlConfigured then ("", [])
  else
    match fetchRes with
    | none => ("", [])
    | some results =>
      results.foldl (fun acc r =>
        match webResultEntry r with
        | some e => (acc.1 ++ e.1, acc.2 ++ [e.2])
        | none => acc) ("", [])

/-- The keyword selection of lines 295-297: the classification keywords when
nonempty, else the whitespace-split query words longer than 2 characters.
Precondition (enforced by the caller): `keywords` is present. -/
def selectSearchKeywords (keywords : List String) (trimmedQuery : String) :
    List String :=
  if keywords.length > 0 then keywords
  else (splitWSJS trimmedQuery).filter (fun w => w.length > 2)

/-- The local-context assembly of lines 303-305. -/
def buildContextText (contextChunks : List DocumentChunkOut) : String :=
  String.intercalate "\n\n---\n\n"
    (contextChunks.enum.map (fun p =>
      "[Source " ++ toString (p.1 + 1) ++ ": " ++ p.2.document_filename ++
        "]\n" ++ p.2.content))

/-- The RAG `try` block of lines 293-320, producing
`(contextChunks, contextText, webSources)`.  `none` models the `catch`
branch: reading `classification.keywords.length` on a request without a
`keywords` field throws, the exception is caught, and the handler continues
with empty context. -/
def ragStep (db : List ChunkRow) (docs : List DocRow) (userId : Nat)
    (c : Classification) (trimmedQuery : String)
    (tsMatch : String → ChunkRow → Bool) (orFilter : ChunkRow → Bool)
    (tsErr ilikeErr : Bool) (firecrawlConfigured : Bool)
    (webFetch : Option (List WebResult)) :
    Option (List DocumentChunkOut × String × List String) :=
  match c.keywords with
  | none => none
  | some kws =>
    let searchKeywords := selectSearchKeywords kws trimmedQuery
    let contextChunks := searchDocumentChunks db docs userId searchKeywords
      tsMatch orFilter tsErr ilikeErr
    if contextChunks.length > 0 then
      some (contextChunks, buildContextText contextChunks, [])
    else
      let w := searchWebForLegalInfo firecrawlConfigured webFetch
      if w.1 ≠ "" then some ([], w.1, w.2) else some ([], "", [])

/-- The context-message assembly of lines 322-345.  `none` models the
`TypeError` thrown by `classification.domain.toUpperCase()` or
`classification.keywords.join(", ")` on a missing field, which escapes to
the outer `catch`. -/
def contextMessageOf (c : Classification) (contextText : String)
    (haveLocalChunks : Bool) (trimmedQuery : String) : Option String :=
  match c.domain, c.keywords with
  | some d, some kws =>
    let header := "Query Classification:\n- Domain: " ++ toUpperJS d ++
      "\n- Query Type: " ++ jsInterp c.queryType ++
      "\n- Confidence: " ++ jsInterp c.confidence ++
      "\n- Keywords: " ++ String.intercalate ", " kws ++ "\n\n"
    let withContext :=
      if contextText ≠ "" then
        let sourceType := if haveLocalChunks then "VERIFIED DOCUMENTS"
          else "OFFICIAL GOVERNMENT WEBSITES"
        header ++ "CONTEXT FROM " ++ sourceType ++ ":\n" ++ contextText ++
          "\n\n---\n\n"
      else header ++ noContextLine ++ "\n\n"
    some (withContext ++ "User Query: " ++ trimmedQuery)
  | _, _ => none

/-- JavaScript `arr.slice(-n)`. -/
def takeLast {α : Type} (n : Nat) (l : List α) : List α :=
  l.drop (l.length - n)

/-- One entry of the `sources` array of a success response (lines 404-415). -/
structure SourceEntry where
  filename : String
  similarity : Option ℚ
  url : Option String
  type : String
  deriving Repr, DecidableEq

/-- A local-document source entry: filename, similarity and tag
`"document"`. -/
def docSourceEntry (c : DocumentChunkOut) : SourceEntry :=
  { filename := c.document_filename, similarity := some c.similarity,
    url := none, type := "document" }

/-- A web source entry: `new URL(url).hostname`, the URL and tag `"web"`. -/
def webSourceEntry (url : String) : SourceEntry :=
  { filename := (parseURLHostname url).getD "", similarity := none,
    url := some url, type := "web" }

/-- The JSON body of a success response (lines 417-426). -/
structure GenBody where
  response : String
  classification : Classification
  query : String
  sourcesUsed : Nat
  sources : List SourceEntry
  deriving Repr, DecidableEq

/-- The success-response body constructor of lines 404-426: local document
sources (filename, similarity, tag `"document"`) when local chunks matched,
web sources (hostname, URL, tag `"web"`) otherwise;
`sourcesUsed: contextChunks.length || webSources.length`. -/
def genSuccessBody (c : Classification) (trimmedQuery : String)
    (contextChunks : List DocumentChunkOut) (webSources : List String)
    (aiResponse : String) : GenBody :=
  { response := aiResponse, classification := c, query := trimmedQuery,
    sourcesUsed := if contextChunks.length ≠ 0 then contextChunks.length
      else webSources.length,
    sources := if contextChunks.length > 0 then
        contextChunks.map docSourceEntry
      else webSources.map webSourceEntry }

/-- The keys of the success-response JSON object literal (lines 418-424),
in source order. -/
def genSuccessBodyKeys : List String :=
  ["response", "classification", "query", "sourcesUsed", "sources"]

/-- Outcome of one generation request. -/
inductive GenOutcome where
  | errResp (status : Nat) (code : String)
  | success (body : GenBody)
  deriving Repr, DecidableEq

/-- The post-authentication `serve` handler of `generate-response/index.ts`
(lines 237-437).  The empty string stands for a missing `query` field;
`aiStatus` is the HTTP status of the chat-completion call and `llm` the
model capability. -/
def generateResponse (db : List ChunkRow) (docs : List DocRow) (userId : Nat)
    (query : String) (classification : Option Classification)
    (conversationHistory : List ChatMsg)
    (tsMatch : String → ChunkRow → Bool) (orFilter : ChunkRow → Bool)
    (tsErr ilikeErr : Bool) (lovableConfigured firecrawlConfigured : Bool)
    (webFetch : Option (List WebResult)) (aiStatus : Nat)
    (llm : List ChatMsg → Option String) : GenOutcome :=
  if query = "" then .errResp 400 "QUERY_MISSING"
  else
    let trimmedQuery := trimJS query
    if trimmedQuery.length < MIN_QUERY_LENGTH then
      .errResp 400 "QUERY_TOO_SHORT"
    else if trimmedQuery.length > MAX_QUERY_LENGTH then
      .errResp 400 "QUERY_TOO_LONG"
    else if ¬ classificationValid classification then
      .errResp 400 "CLASSIFICATION_MISSING"
    else if ¬ lovableConfigured then .errResp 503 "SERVICE_ERROR"
    else
      match classification with
      | none => .errResp 400 "CLASSIFICATION_MISSING"
      | some c =>
        let rag := ragStep db docs userId c trimmedQuery tsMatch orFilter
          tsErr ilikeErr firecrawlConfigured webFetch
        let contextChunks := (rag.map (fun r => r.1)).getD []
        let contextText := (rag.map (fun r => r.2.1)).getD ""
        let webSources := (rag.map (fun r => r.2.2)).getD []
        match contextMessageOf c contextText (contextChunks.length > 0)
          trimmedQuery with
        | none => .errResp 500 "INTERNAL_ERROR"
        | some contextMessage =>
          let sysMsg : ChatMsg :=
            { role := "system", content := RULEX_SYSTEM_PROMPT }
          let userMsg : ChatMsg := { role := "user", content := contextMessage }
          let messages := sysMsg :: (takeLast 10 conversationHistory ++ [userMsg])
          if aiStatus = 429 then .errResp 429 "RATE_LIMIT"
          else if aiStatus = 402 then .errResp 402 "QUOTA_EXCEEDED"
          else if aiStatus ≠ 200 then .errResp 500 "PROCESSING_ERROR"
          else
            match llm messages with
            | none => .errResp 500 "RESPONSE_ERROR"
            | some aiResponse =>
              .success (genSuccessBody c trimmedQuery contextChunks webSources
                aiResponse)

/-- Substring test (JavaScript `s.includes(pat)`), used to state properties
of the assembled prompt. -/
def containsSub (s pat : String) : Bool :=
  (List.range (s.length + 1)).any
    (fun i => pat.toList.isPrefixOf (s.toList.drop i))

/-- Compliance of the model capability with the REFUSAL RULE of its system
prompt: on any message list opening with the ruleX system prompt and closing
with a user message that carries the no-context marker, the model answers
with exactly the refusal sentence.  The spec treats the model as a black-box
capability bound by this contract; the refusal behavior of the pipeline is
conditional on it. -/
def RefusalCompliant (llm : List ChatMsg → Option String) : Prop :=
  ∀ msgs : List ChatMsg, ∀ m : ChatMsg,
    msgs.head? = some { role := "system", content := RULEX_SYSTEM_PROMPT } →
    msgs.getLast? = some m →
    m.role = "user" →
    containsSub m.content noContextLine = true →
    llm msgs = some refusalMessage

/-! ## Claim-level predicates and concrete fixtures -/

/-- The ordinal-contiguity invariant claimed for stored chunks: the
`chunk_index` values are exactly `0..N-1` in order, `N` the number of stored
chunks. -/
def chunkIndexesContiguous (stored : List StoredChunk) : Prop :=
  stored.map (fun r => r.chunk_index) = List.range stored.length

/-- The claimed tie-break discipline for vector-search results: strictly
descending similarity, with equal scores ordered by ascending chunk id. -/
def tieBrokenById (dist : List ℚ → List ℚ → ℚ) (queryEmbedding : List ℚ)
    (res : List ChunkRow) : Prop :=
  res.Pairwise (fun a b =>
    rowSimilarity dist queryEmbedding a > rowSimilarity dist queryEmbedding b ∨
      (rowSimilarity dist queryEmbedding a = rowSimilarity dist queryEmbedding b ∧
        a.id < b.id))

/-- Concrete stand-in for the pgvector cosine-distance capability used in
counterexample runs: distance `0` between equal vectors, `1` otherwise.  It
agrees with true cosine distance at every input the counterexamples use
(identical nonzero vectors have cosine distance `0`; the orthogonal pairs
used have cosine distance `1`). -/
def distEq : List ℚ → List ℚ → ℚ := fun a b => if a = b then 0 else 1

/-- A well-formed classification request fixture. -/
def gstClassification : Classification :=
  { domain := some "gst", queryType := some "informational",
    confidence := some "high", keywords := some ["gst"] }

/-- A classification request with `domain` and `queryType` present but no
`keywords` field. -/
def gstClassificationNoKeywords : Classification :=
  { domain := some "gst", queryType := some "informational",
    confidence := some "high", keywords := none }

/-- A 1100-character extracted text with no sentence or paragraph boundary:
`chunkText` splits it into a 1000-character and a 300-character chunk. -/
def gapText : String := String.mk (List.replicate 1100 'a')

/-- A 120-character scraped/extracted content fixture. -/
def scrapeContent : String := String.mk (List.replicate 120 'a')

/-- A 100-character fetched text whose cleaned form is 45 characters: it
passes the minimum-length gate but chunks to nothing (the single 45-character
slice is below the 50-character chunk threshold). -/
def kanoonShortText : String :=
  String.mk (List.replicate 45 'x' ++ List.replicate 55 ' ')

/-- The 120-character example text of the ingestion scenario (the spec elides
its tail; this instantiation has no sentence or paragraph break, matching the
single-chunk outcome it describes). -/
def cgstExampleText : String :=
  "Section 16 of the CGST Act states that input tax credit can be claimed only by a registered person meeting all condition"

/-- An embedded chunk row owned by user 7, hit by any query embedding equal
to its own vector. -/
def embeddedRow : ChunkRow :=
  { id := 1, document_id := 1, user_id := 7,
    content := "Section 16 CGST input tax credit", chunk_index := 0,
    embedding := some [1, 0] }

/-- A second embedded chunk row of the same owner with the same embedding
vector (hence always the same similarity score) and a larger id. -/
def embeddedRow2 : ChunkRow :=
  { id := 2, document_id := 1, user_id := 7,
    content := "Section 17 CGST apportionment of credit", chunk_index := 1,
    embedding := some [1, 0] }

/-- A chunk row owned by a different user (user 9). -/
def otherUserRow : ChunkRow :=
  { id := 3, document_id := 2, user_id := 9,
    content := "Section 16 CGST input tax credit", chunk_index := 0,
    embedding := some [1, 0] }

/-- The success body of a refusal response to the fixture query. -/
def refusalBody : GenBody :=
  { response := refusalMessage, classification := gstClassification,
    query := trimJS "What is GST?", sourcesUsed := 0, sources := [] }

/-- A documents-table fixture for the two owners. -/
def docsFixture : List DocRow :=
  [{ id := 1, user_id := 7, filename := "cgst-act.pdf" },
   { id := 2, user_id := 9, filename := "other.pdf" }]

/-! ## Helper lemmas -/

theorem containsSub_append_middle (a pat b : String) :
    containsSub (a ++ (pat ++ b)) pat = true := by
  unfold containsSub
  rw [List.any_eq_true]
  refine ⟨a.length, ?_, ?_⟩
  · rw [List.mem_range]
    have h : (a ++ (pat ++ b)).length = a.length + (pat.length + b.length) := by
      simp [String.length_append]
    omega
  · have hdata : (a ++ (pat ++ b)).toList = a.toList ++ (pat.toList ++ b.toList) := by
      simp [String.toList, String.data_append]
    have hlen : a.length = a.toList.length := rfl
    rw [hdata, hlen, List.drop_left, List.isPrefixOf_iff_prefix]
    exact List.prefix_append _ _

theorem getLast_cons_concat {α : Type} (x y : α) (l : List α) :
    (x :: (l ++ [y])).getLast? = some y := by
  have h : x :: (l ++ [y]) = (x :: l) ++ [y] := by simp
  rw [h, List.getLast?_concat]

theorem searchWebForLegalInfo_empty (fc : Bool) :
    searchWebForLegalInfo fc (some []) = ("", []) := by
  rw [searchWebForLegalInfo]; cases fc <;> simp

theorem insertBatchesStrictGo_ok (bs : Nat) (f : Nat → Bool) :
    ∀ (l : List StoredChunk) (b i : Nat),
      (insertBatchesStrictGo bs f l b i).2 = true →
      (insertBatchesStrictGo bs f l b i).1 = l := by
  intro l
  induction l with
  | nil => intro b i _; rfl
  | cons r rest ih =>
    intro b i h
    rw [insertBatchesStrictGo] at h ⊢
    by_cases hf : (decide (i = 0) && f b) = true
    · rw [if_pos hf] at h
      exact absurd h (by simp)
    · rw [if_neg hf] at h ⊢
      by_cases hib : i + 1 = bs
      · rw [if_pos hib] at h ⊢
        simp only at h ⊢
        rw [ih (b + 1) 0 h]
      · rw [if_neg hib] at h ⊢
        simp only at h ⊢
        rw [ih b (i + 1) h]

theorem embedChunkRecords_go (docId uid : Nat) (ef : Nat → Bool) :
    ∀ (chunks : List String) (n : Nat),
      ((List.enumFrom n chunks).filterMap (fun p =>
        if ef p.1 then none
        else some ({ document_id := docId, user_id := uid, content := p.2,
                     chunk_index := p.1, hasEmbedding := true } : StoredChunk))).map
        (fun r => r.chunk_index)
        = (List.range' n chunks.length).filter (fun i => ! ef i) := by
  intro chunks
  induction chunks with
  | nil => intro n; rfl
  | cons c cs ih =>
    intro n
    simp only [List.enumFrom, List.filterMap_cons, List.length_cons, List.range']
    by_cases hef : ef n
    · simp [hef, ih (n + 1)]
    · simp [hef, ih (n + 1)]

theorem embedChunkRecords_map_index (docId uid : Nat) (chunks : List String)
    (ef : Nat → Bool) :
    (embedChunkRecords docId uid chunks ef).map (fun r => r.chunk_index)
      = (List.range chunks.length).filter (fun i => ! ef i) := by
  have h1 : chunks.enum = chunks.enumFrom 0 := rfl
  rw [embedChunkRecords, h1, embedChunkRecords_go, List.range_eq_range']

theorem matchQualifies_embeddedRow :
    matchQualifies distEq [1, 0] matchThresholdDefault 7 embeddedRow = true := by
  simp [matchQualifies, rowSimilarity, distEq, embeddedRow,
    matchThresholdDefault, decide_eq_true_eq]
  norm_num

theorem matchQualifies_embeddedRow2 :
    matchQualifies distEq [1, 0] matchThresholdDefault 7 embeddedRow2 = true := by
  simp [matchQualifies, rowSimilarity, distEq, embeddedRow2,
    matchThresholdDefault, decide_eq_true_eq]
  norm_num

theorem isMatchResult_single :
    isMatchResult distEq [embeddedRow] [1, 0] matchThresholdDefault
      matchCountDefault 7 [embeddedRow] := by
  refine ⟨[embeddedRow], ?_, ?_, rfl⟩
  · simp [List.filter, matchQualifies_embeddedRow]
  · simp

theorem isMatchResult_pair :
    isMatchResult distEq [embeddedRow2, embeddedRow] [1, 0]
      matchThresholdDefault matchCountDefault 7 [embeddedRow2, embeddedRow] := by
  refine ⟨[embeddedRow2, embeddedRow], ?_, ?_, rfl⟩
  · simp [List.filter, matchQualifies_embeddedRow, matchQualifies_embeddedRow2]
  · refine List.Pairwise.cons ?_ (by simp)
    intro r hr
    simp only [List.mem_singleton] at hr
    subst hr
    simp [rowSimilarity, distEq, embeddedRow, embeddedRow2]

/-! ## Claims -/

/-- C1: for every generation request whose retrieval step returns zero
document chunks and whose web search returns zero snippets, the response text
returned by the generate operation is exactly the fixed refusal string.  The
language model is an external capability; the theorem is conditional on its
compliance with the REFUSAL RULE of the system prompt (`RefusalCompliant`),
and shows that in this situation the handler assembles the no-context prompt
and passes the model's refusal through verbatim as the `response` field. -/
theorem generate_refusal_on_empty_retrieval
    (db : List ChunkRow) (docs : List DocRow) (userId : Nat) (query : String)
    (c : Classification) (kws : List String)
    (conversationHistory : List ChatMsg)
    (tsMatch : String → ChunkRow → Bool) (orFilter : ChunkRow → Bool)
    (tsErr ilikeErr firecrawlConfigured : Bool)
    (llm : List ChatMsg → Option String)
    (hq0 : query ≠ "")
    (hq1 : MIN_QUERY_LENGTH ≤ (trimJS query).length)
    (hq2 : (trimJS query).length ≤ MAX_QUERY_LENGTH)
    (hvalid : classificationValid (some c) = true)
    (hkw : c.keywords = some kws)
    (hchunks : searchDocumentChunks db docs userId
      (selectSearchKeywords kws (trimJS query)) tsMatch orFilter tsErr ilikeErr = [])
    (hllm : RefusalCompliant llm) :
    generateResponse db docs userId query (some c) conversationHistory tsMatch
      orFilter tsErr ilikeErr true firecrawlConfigured (some []) 200 llm
      = .success { response := refusalMessage, classification := c,
                   query := trimJS query, sourcesUsed := 0, sources := [] } := by
  obtain ⟨d, hd⟩ : ∃ d, c.domain = some d := by
    cases hc : c.domain with
    | none => rw [classificationValid, hc] at hvalid; simp [jsTruthy] at hvalid
    | some d => exact ⟨d, rfl⟩
  have hrag : ragStep db docs userId c (trimJS query) tsMatch orFilter tsErr
      ilikeErr firecrawlConfigured (some []) = some ([], "", []) := by
    rw [ragStep, hkw]
    simp [hchunks, searchWebForLegalInfo_empty]
  have hctx : contextMessageOf c "" false (trimJS query)
      = some (("Query Classification:\n- Domain: " ++ toUpperJS d ++
          "\n- Query Type: " ++ jsInterp c.queryType ++
          "\n- Confidence: " ++ jsInterp c.confidence ++
          "\n- Keywords: " ++ String.intercalate ", " kws ++ "\n\n") ++
          (noContextLine ++ ("\n\nUser Query: " ++ trimJS query))) := by
    rw [contextMessageOf, hd, hkw]
    simp [String.append_assoc]
  have hcontains : containsSub
      (("Query Classification:\n- Domain: " ++ toUpperJS d ++
        "\n- Query Type: " ++ jsInterp c.queryType ++
        "\n- Confidence: " ++ jsInterp c.confidence ++
        "\n- Keywords: " ++ String.intercalate ", " kws ++ "\n\n") ++
        (noContextLine ++ ("\n\nUser Query: " ++ trimJS query)))
      noContextLine = true :=
    containsSub_append_middle _ _ _
  have hllmApp := hllm
    (({ role := "system", content := RULEX_SYSTEM_PROMPT } : ChatMsg) ::
      (takeLast 10 conversationHistory ++
        [{ role := "user", content :=
          ("Query Classification:\n- Domain: " ++ toUpperJS d ++
            "\n- Query Type: " ++ jsInterp c.queryType ++
            "\n- Confidence: " ++ jsInterp c.confidence ++
            "\n- Keywords: " ++ String.intercalate ", " kws ++ "\n\n") ++
            (noContextLine ++ ("\n\nUser Query: " ++ trimJS query)) }]))
    { role := "user", content :=
      ("Query Classification:\n- Domain: " ++ toUpperJS d ++
        "\n- Query Type: " ++ jsInterp c.queryType ++
        "\n- Confidence: " ++ jsInterp c.confidence ++
        "\n- Keywords: " ++ String.intercalate ", " kws ++ "\n\n") ++
        (noContextLine ++ ("\n\nUser Query: " ++ trimJS query)) }
    rfl (getLast_cons_concat _ _ _) rfl hcontains
  rw [generateResponse, if_neg hq0]
  rw [if_neg (Nat.not_lt.mpr hq1), if_neg (Nat.not_lt.mpr hq2)]
  rw [if_neg (by rw [hvalid]; simp)]
  rw [if_neg (by simp)]
  simp only [hrag, Option.map_some', Option.getD_some, List.length_nil]
  norm_num
  rw [hctx]
  simp only [hllmApp]
  simp [genSuccessBody]

/-- Witness for C1 at a concrete empty-retrieval request. -/
theorem generate_refusal_on_empty_retrieval_witness :
    generateResponse [] [] 7 "What is GST?" (some gstClassification) []
      (fun _ _ => false) (fun _ => false) false false true true (some []) 200
      (fun _ => some refusalMessage)
      = .success { response := refusalMessage,
                   classification := gstClassification,
                   query := trimJS "What is GST?", sourcesUsed := 0,
                   sources := [] } :=
  generate_refusal_on_empty_retrieval [] [] 7 "What is GST?" gstClassification
    ["gst"] [] (fun _ _ => false) (fun _ => false) false false true
    (fun _ => some refusalMessage) (by decide) (by decide) (by decide)
    (by decide) rfl (by decide) (fun _ _ _ _ _ _ => rfl)

/-- C9: a generation request whose classification has `domain` and
`queryType` but no `keywords` field passes the `CLASSIFICATION_MISSING`
validation check, and the request then fails with the generic
`INTERNAL_ERROR` code (HTTP 500) when the `keywords` array is dereferenced
while building the context message, rather than being rejected as an
input-validation error (HTTP 400). -/
theorem missing_keywords_internal_error
    (db : List ChunkRow) (docs : List DocRow) (userId : Nat) (query : String)
    (c : Classification) (conversationHistory : List ChatMsg)
    (tsMatch : String → ChunkRow → Bool) (orFilter : ChunkRow → Bool)
    (tsErr ilikeErr firecrawlConfigured : Bool)
    (webFetch : Option (List WebResult)) (aiStatus : Nat)
    (llm : List ChatMsg → Option String)
    (hq0 : query ≠ "")
    (hq1 : MIN_QUERY_LENGTH ≤ (trimJS query).length)
    (hq2 : (trimJS query).length ≤ MAX_QUERY_LENGTH)
    (hdom : jsTruthy c.domain = true)
    (hqt : jsTruthy c.queryType = true)
    (hkw : c.keywords = none) :
    classificationValid (some c) = true ∧
    generateResponse db docs userId query (some c) conversationHistory tsMatch
      orFilter tsErr ilikeErr true firecrawlConfigured webFetch aiStatus llm
      = .errResp 500 "INTERNAL_ERROR" := by
  have hvalid : classificationValid (some c) = true := by
    rw [classificationValid, hdom, hqt]; rfl
  obtain ⟨d, hd⟩ : ∃ d, c.domain = some d := by
    cases hc : c.domain with
    | none => rw [hc] at hdom; simp [jsTruthy] at hdom
    | some d => exact ⟨d, rfl⟩
  have hrag : ragStep db docs userId c (trimJS query) tsMatch orFilter tsErr
      ilikeErr firecrawlConfigured webFetch = none := by
    rw [ragStep, hkw]
  refine ⟨hvalid, ?_⟩
  rw [generateResponse, if_neg hq0]
  rw [if_neg (Nat.not_lt.mpr hq1), if_neg (Nat.not_lt.mpr hq2)]
  rw [if_neg (by rw [hvalid]; simp)]
  rw [if_neg (by simp)]
  simp only [hrag, Option.map_none', Option.getD_none, List.length_nil]
  rw [contextMessageOf, hd, hkw]

/-- Witness for C9 at a concrete keywords-free classification. -/
theorem missing_keywords_internal_error_witness :
    classificationValid (some gstClassificationNoKeywords) = true ∧
    generateResponse [] [] 7 "What is GST?" (some gstClassificationNoKeywords)
      [] (fun _ _ => false) (fun _ => false) false false true true (some [])
      200 (fun _ => some refusalMessage) = .errResp 500 "INTERNAL_ERROR" :=
  missing_keywords_internal_error [] [] 7 "What is GST?"
    gstClassificationNoKeywords [] (fun _ _ => false) (fun _ => false) false
    false true (some []) 200 (fun _ => some refusalMessage) (by decide)
    (by decide) (by decide) (by decide) (by decide) rfl

/-- C2: every retrieval mode — the vector similarity search
(`match_document_chunks`), the full-text search, the ILIKE fallback, and the
composed `searchDocumentChunks` selection — returns only chunks owned by the
requesting user A; no chunk owned by any other user B is ever returned,
regardless of query text (the text-match and or-filter predicates are
universally quantified, covering arbitrary query and keyword content). -/
theorem retrieval_owner_isolation
    (dist : List ℚ → List ℚ → ℚ) (db : List ChunkRow) (docs : List DocRow)
    (queryEmbedding : List ℚ) (matchThreshold : ℚ) (matchCount : Nat)
    (userA userB : Nat) (res : List ChunkRow)
    (tsMatch : String → ChunkRow → Bool) (orFilter : ChunkRow → Bool)
    (terms : String) (keywords : List String) (tsErr ilikeErr : Bool)
    (hAB : userA ≠ userB) :
    (isMatchResult dist db queryEmbedding matchThreshold matchCount userA res →
      ∀ r ∈ res, r.user_id = userA ∧ r.user_id ≠ userB) ∧
    (∀ r ∈ tsQueryRows db docs userA tsMatch terms,
      r.user_id = userA ∧ r.user_id ≠ userB) ∧
    (∀ r ∈ ilikeRows db docs userA orFilter,
      r.user_id = userA ∧ r.user_id ≠ userB) ∧
    (∀ r ∈ searchDocumentChunksRows db docs userA keywords tsMatch orFilter
        tsErr ilikeErr, r.user_id = userA ∧ r.user_id ≠ userB) := by
  have howner : ∀ r : ChunkRow, r.user_id = userA →
      r.user_id = userA ∧ r.user_id ≠ userB := by
    intro r h
    exact ⟨h, fun hB => hAB (h ▸ hB)⟩
  have hts : ∀ (t : String), ∀ r ∈ tsQueryRows db docs userA tsMatch t,
      r.user_id = userA ∧ r.user_id ≠ userB := by
    intro t r hr
    rw [tsQueryRows] at hr
    have hr2 := List.mem_of_mem_take hr
    rw [List.mem_filter] at hr2
    have := hr2.2
    simp only [Bool.and_eq_true, decide_eq_true_eq] at this
    exact howner r this.1.1
  have hil : ∀ r ∈ ilikeRows db docs userA orFilter,
      r.user_id = userA ∧ r.user_id ≠ userB := by
    intro r hr
    rw [ilikeRows] at hr
    have hr2 := List.mem_of_mem_take hr
    rw [List.mem_filter] at hr2
    have := hr2.2
    simp only [Bool.and_eq_true, decide_eq_true_eq] at this
    exact howner r this.1.1
  refine ⟨?_, hts terms, hil, ?_⟩
  · intro h r hr
    obtain ⟨l, hperm, hsort, htake⟩ := h
    subst htake
    have hrl : r ∈ l := List.mem_of_mem_take hr
    have hrf := hperm.subset hrl
    rw [List.mem_filter] at hrf
    have := hrf.2
    simp only [matchQualifies, Bool.and_eq_true, decide_eq_true_eq] at this
    exact howner r this.1.1
  · intro r hr
    rw [searchDocumentChunksRows] at hr
    by_cases h1 : searchTerms keywords = ""
    · rw [if_pos h1] at hr
      simp at hr
    · rw [if_neg h1] at hr
      by_cases h2 : tsErr
      · simp only [h2] at hr
        by_cases h3 : ilikeErr
        · simp [h3] at hr
        · simp only [h3] at hr
          simp only [Bool.not_true, Bool.false_eq_true, if_false, if_neg] at hr
          exact hil r (by simpa using hr)
      · simp only [h2] at hr
        exact hts (searchTerms keywords) r (by simpa using hr)

/-- Witness for C2: user 7 retrieves own chunk, never user 9's. -/
theorem retrieval_owner_isolation_witness :
    embeddedRow.user_id = 7 ∧ embeddedRow.user_id ≠ 9 :=
  (retrieval_owner_isolation distEq [embeddedRow, otherUserRow] docsFixture
    [1, 0] matchThresholdDefault matchCountDefault 7 9 [embeddedRow]
    (fun _ _ => true) (fun _ => true) "gst" ["gst"] false false
    (by decide)).2.1 embeddedRow (by decide)

/-- C5 counterexample: a retrieval state in which vector search is available
and would return a result above the default threshold (the owner has an
embedded chunk matching the query embedding), yet the generation pipeline
still invokes the keyword search and the web fallback — and never the vector
search — refuting the claimed vector-first preference order. -/
theorem retrieval_order_counterexample :
    isMatchResult distEq [embeddedRow] [1, 0] matchThresholdDefault
      matchCountDefault 7 [embeddedRow] ∧
    ([embeddedRow] : List ChunkRow) ≠ [] ∧
    generationRetrievalTrace [embeddedRow] docsFixture 7 ["gst"]
      (fun _ _ => false) (fun _ => false) false false
      = [SearchMode.textSearch, SearchMode.web] ∧
    SearchMode.textSearch ∈ generationRetrievalTrace [embeddedRow] docsFixture
      7 ["gst"] (fun _ _ => false) (fun _ => false) false false ∧
    SearchMode.web ∈ generationRetrievalTrace [embeddedRow] docsFixture 7
      ["gst"] (fun _ _ => false) (fun _ => false) false false :=
  ⟨isMatchResult_single, by decide, by decide, by decide, by decide⟩

/-- C5 amended: the generation retriever never invokes vector similarity
search (it exists only behind the separate `search-documents` endpoint); it
invokes the full-text keyword search whenever the joined search terms are
nonempty, the ILIKE fallback exactly when the full-text query errors, and the
web fallback exactly when the local result set is empty — and the web
fallback, when invoked, is always the last retrieval call. -/
theorem generation_retrieval_order
    (db : List ChunkRow) (docs : List DocRow) (userId : Nat)
    (keywords : List String) (tsMatch : String → ChunkRow → Bool)
    (orFilter : ChunkRow → Bool) (tsErr ilikeErr : Bool) :
    SearchMode.vector ∉ generationRetrievalTrace db docs userId keywords
      tsMatch orFilter tsErr ilikeErr ∧
    (SearchMode.web ∈ generationRetrievalTrace db docs userId keywords tsMatch
        orFilter tsErr ilikeErr
      ↔ searchDocumentChunks db docs userId keywords tsMatch orFilter tsErr
          ilikeErr = []) ∧
    (SearchMode.ilike ∈ generationRetrievalTrace db docs userId keywords
        tsMatch orFilter tsErr ilikeErr
      ↔ (searchTerms keywords ≠ "" ∧ tsErr = true)) ∧
    (SearchMode.textSearch ∈ generationRetrievalTrace db docs userId keywords
        tsMatch orFilter tsErr ilikeErr
      ↔ searchTerms keywords ≠ "") ∧
    (SearchMode.web ∈ generationRetrievalTrace db docs userId keywords tsMatch
        orFilter tsErr ilikeErr →
      (generationRetrievalTrace db docs userId keywords tsMatch orFilter tsErr
        ilikeErr).getLast? = some SearchMode.web) := by
  rw [generationRetrievalTrace, searchDocumentChunksTrace]
  by_cases h1 : searchTerms keywords = ""
  · rw [if_pos h1]
    by_cases h2 : searchDocumentChunks db docs userId keywords tsMatch
        orFilter tsErr ilikeErr = []
    · simp [h1, h2]
    · simp [h1, h2]
  · rw [if_neg h1]
    by_cases h2 : searchDocumentChunks db docs userId keywords tsMatch
        orFilter tsErr ilikeErr = []
    · cases tsErr <;> simp [h1, h2]
    · cases tsErr <;> simp [h1, h2]

/-- Witness for the amended C5 at a concrete retrieval state. -/
theorem generation_retrieval_order_witness :
    SearchMode.vector ∉ generationRetrievalTrace [embeddedRow] docsFixture 7
      ["gst"] (fun _ _ => false) (fun _ => false) false false :=
  (generation_retrieval_order [embeddedRow] docsFixture 7 ["gst"]
    (fun _ _ => false) (fun _ => false) false false).1

/-- C6 counterexample: `ORDER BY dc.embedding <=> query_embedding` carries no
secondary sort key, so two equal-similarity rows of the same owner may come
back with the larger chunk id first — a valid result of
`match_document_chunks` that violates the claimed stable tie-break by chunk
id. -/
theorem match_tiebreak_counterexample :
    isMatchResult distEq [embeddedRow2, embeddedRow] [1, 0]
      matchThresholdDefault matchCountDefault 7 [embeddedRow2, embeddedRow] ∧
    rowSimilarity distEq [1, 0] embeddedRow2
      = rowSimilarity distEq [1, 0] embeddedRow ∧
    embeddedRow.id < embeddedRow2.id ∧
    ¬ tieBrokenById distEq [1, 0] [embeddedRow2, embeddedRow] := by
  have heq : rowSimilarity distEq [1, 0] embeddedRow2
      = rowSimilarity distEq [1, 0] embeddedRow := by
    simp [rowSimilarity, distEq, embeddedRow, embeddedRow2]
  refine ⟨isMatchResult_pair, heq, by decide, ?_⟩
  intro h
  rw [tieBrokenById, List.pairwise_cons] at h
  have h1 := h.1 embeddedRow (by simp)
  rcases h1 with hgt | ⟨_, hlt⟩
  · rw [heq] at hgt
    exact lt_irrefl _ hgt
  · exact absurd hlt (by decide)

/-- C6 amended: every possible result of `match_document_chunks` consists
exactly of the requesting owner's chunks with a non-null embedding whose
similarity strictly exceeds the threshold (defaults 0.7 and count 5),
ordered descending by similarity, capped at `match_count`, and complete
below the cap — but the relative order of equal-similarity rows is
unspecified (no tie-break by chunk id). -/
theorem match_result_characterization
    (dist : List ℚ → List ℚ → ℚ) (db : List ChunkRow)
    (queryEmbedding : List ℚ) (matchThreshold : ℚ) (matchCount : Nat)
    (pUserId : Nat) (res : List ChunkRow)
    (h : isMatchResult dist db queryEmbedding matchThreshold matchCount
      pUserId res) :
    (∀ r ∈ res, r.user_id = pUserId ∧ r.embedding.isSome = true ∧
      rowSimilarity dist queryEmbedding r > matchThreshold) ∧
    res.Pairwise (fun a b => rowSimilarity dist queryEmbedding a
      ≥ rowSimilarity dist queryEmbedding b) ∧
    res.length = min matchCount
      (db.filter (matchQualifies dist queryEmbedding matchThreshold
        pUserId)).length ∧
    (∀ r ∈ db, matchQualifies dist queryEmbedding matchThreshold pUserId r
        = true → res.length < matchCount → r ∈ res) ∧
    matchThresholdDefault = 7 / 10 ∧ matchCountDefault = 5 := by
  obtain ⟨l, hperm, hsort, htake⟩ := h
  subst htake
  refine ⟨?_, ?_, ?_, ?_, rfl, rfl⟩
  · intro r hr
    have hrf := hperm.subset (List.mem_of_mem_take hr)
    rw [List.mem_filter] at hrf
    have h2 := hrf.2
    simp only [matchQualifies, Bool.and_eq_true, decide_eq_true_eq] at h2
    exact ⟨h2.1.1, h2.1.2, h2.2⟩
  · exact List.Pairwise.sublist (List.take_sublist _ _) hsort
  · rw [List.length_take, hperm.length_eq]
  · intro r hrdb hq hlen
    have hll : l.length < matchCount := by
      rw [List.length_take] at hlen
      omega
    rw [List.take_of_length_le (le_of_lt hll)]
    exact hperm.mem_iff.2 (List.mem_filter.2 ⟨hrdb, hq⟩)

/-- Witness for the amended C6 at a concrete one-row result. -/
theorem match_result_characterization_witness :
    embeddedRow.user_id = 7 ∧ embeddedRow.embedding.isSome = true ∧
    rowSimilarity distEq [1, 0] embeddedRow > matchThresholdDefault :=
  (match_result_characterization distEq [embeddedRow] [1, 0]
    matchThresholdDefault matchCountDefault 7 [embeddedRow]
    isMatchResult_single).1 embeddedRow (by decide)

set_option maxRecDepth 100000 in
/-- C3 counterexample: an upload ingestion of a 1100-character text chunks
into two pieces; the embedding call for chunk 0 fails, the chunk is skipped,
and the document is still marked `processed` with a single stored record
whose `chunk_index` is 1 — the stored ordinals are not the contiguous
sequence `0..N-1`. -/
theorem chunk_index_gap_counterexample :
    (processDocumentCore 1 7 true gapText (fun i => i == 0)
      (fun _ => false)).outcome = .ok 1 ∧
    (processDocumentCore 1 7 true gapText (fun i => i == 0)
      (fun _ => false)).statusWrites = ["processing", "processed"] ∧
    (processDocumentCore 1 7 true gapText (fun i => i == 0)
      (fun _ => false)).persisted.map (fun r => r.chunk_index) = [1] ∧
    ¬ chunkIndexesContiguous (processDocumentCore 1 7 true gapText
      (fun i => i == 0) (fun _ => false)).persisted := by
  refine ⟨by decide, by decide, by decide, ?_⟩
  rw [chunkIndexesContiguous]
  decide

/-- C3 amended: for every upload ingestion run that ends `processed`, the
stored `chunk_index` values are exactly the original positions of the chunks
whose embedding call succeeded, in increasing order — contiguous `0..N-1`
when no embedding call fails, but with gaps at the skipped positions when a
mid-list embedding call fails. -/
theorem chunk_index_positions_amended
    (docId uid : Nat) (extractedText : String)
    (embedFails insertFails : Nat → Bool) (n : Nat)
    (h : (processDocumentCore docId uid true extractedText embedFails
      insertFails).outcome = .ok n) :
    (processDocumentCore docId uid true extractedText embedFails
        insertFails).persisted.map (fun r => r.chunk_index)
      = (List.range (chunkText extractedText 1000 200).length).filter
          (fun i => ! embedFails i) ∧
    ((∀ i, embedFails i = false) →
      chunkIndexesContiguous (processDocumentCore docId uid true extractedText
        embedFails insertFails).persisted) := by
  rw [processDocumentCore] at h ⊢
  rw [if_neg (by simp)] at h ⊢
  by_cases hlen : extractedText.length < 100
  · rw [if_pos hlen] at h
    simp at h
  · rw [if_neg hlen] at h ⊢
    by_cases hre : embedChunkRecords docId uid
        (chunkText extractedText 1000 200) embedFails = []
    · rw [if_pos hre] at h
      simp at h
    · rw [if_neg hre] at h ⊢
      simp only at h ⊢
      by_cases hins : (insertBatchesStrict 50 insertFails
          (embedChunkRecords docId uid (chunkText extractedText 1000 200)
            embedFails)).2 = true
      · rw [if_pos hins] at h ⊢
        simp only at h ⊢
        have hall := insertBatchesStrictGo_ok 50 insertFails
          (embedChunkRecords docId uid (chunkText extractedText 1000 200)
            embedFails) 0 0 hins
        rw [insertBatchesStrict] at *
        rw [hall]
        have hidx := embedChunkRecords_map_index docId uid
          (chunkText extractedText 1000 200) embedFails
        refine ⟨hidx, ?_⟩
        intro hnofail
        rw [chunkIndexesContiguous, hidx]
        have hfil : (List.range (chunkText extractedText 1000 200).length).filter
            (fun i => ! embedFails i)
            = List.range (chunkText extractedText 1000 200).length := by
          rw [List.filter_eq_self]
          intro a _
          rw [hnofail a]
          rfl
        rw [hfil]
        have hlenr : (embedChunkRecords docId uid
            (chunkText extractedText 1000 200) embedFails).length
            = (chunkText extractedText 1000 200).length := by
          have := congrArg List.length hidx
          rw [List.length_map, hfil] at this
          rw [this, List.length_range]
        rw [hlenr]
      · rw [if_neg hins] at h
        simp at h

/-- Witness for the amended C3: a failure-free run stores contiguous
ordinals. -/
theorem chunk_index_positions_amended_witness :
    chunkIndexesContiguous (processDocumentCore 1 7 true cgstExampleText
      (fun _ => false) (fun _ => false)).persisted :=
  (chunk_index_positions_amended 1 7 cgstExampleText (fun _ => false)
    (fun _ => false) 1 (by decide)).2 (fun _ => rfl)

set_option maxRecDepth 40000 in
/-- C4 counterexample: a web-scrape ingestion whose every chunk batch insert
fails persists zero chunks yet unconditionally marks the document
`processed` — refuting the claim that zero persisted chunks yields
`failed`. -/
theorem scrape_processed_without_persistence_counterexample :
    (scrapeLegalSite 1 7 "https://indiacode.nic.in/act" true
      (some scrapeContent) true (fun _ => true)).persisted = [] ∧
    (scrapeLegalSite 1 7 "https://indiacode.nic.in/act" true
      (some scrapeContent) true (fun _ => true)).statusWrites
      = ["processing", "processed"] ∧
    (scrapeLegalSite 1 7 "https://indiacode.nic.in/act" true
      (some scrapeContent) true (fun _ => true)).outcome = .ok 1 := by
  refine ⟨by decide, by decide, by decide⟩

set_option maxRecDepth 40000 in
/-- C4 amended: in the upload path the property holds — `processed` implies
at least one persisted chunk and zero persisted chunks ends `failed`; in the
external-search path `processed` implies at least one persisted chunk, but a
zero-chunk run is left at `processing` rather than `failed`; in the
web-scrape path the terminal status is independent of the batch-insert
outcomes, so the document is marked `processed` even when every insert fails
and nothing is persisted. -/
theorem ingestion_processed_persistence_amended :
    (∀ (docId uid : Nat) (download : Bool) (text : String)
        (ef inf : Nat → Bool),
      ((processDocumentCore docId uid download text ef inf).statusWrites.getLast?
          = some "processed" →
        (processDocumentCore docId uid download text ef inf).persisted ≠ []) ∧
      ((processDocumentCore docId uid download text ef inf).persisted = [] →
        (processDocumentCore docId uid download text ef inf).statusWrites.getLast?
          = some "failed")) ∧
    (∀ (docId uid : Nat) (text : String) (dIns iOk : Bool),
      (kanoonIngestDoc docId uid text dIns iOk).statusWrites.getLast?
          = some "processed" →
        (kanoonIngestDoc docId uid text dIns iOk).persisted ≠ []) ∧
    ((kanoonIngestDoc 1 7 kanoonShortText true true).statusWrites
        = ["processing"] ∧
      (kanoonIngestDoc 1 7 kanoonShortText true true).persisted = []) ∧
    (∀ (docId uid : Nat) (url : String) (authOk : Bool)
        (scraped : Option String) (dIns : Bool) (inf inf2 : Nat → Bool),
      (scrapeLegalSite docId uid url authOk scraped dIns inf).statusWrites
        = (scrapeLegalSite docId uid url authOk scraped dIns inf2).statusWrites) := by
  refine ⟨?_, ?_, ⟨by decide, by decide⟩, ?_⟩
  · intro docId uid download text ef inf
    rw [processDocumentCore]
    by_cases hdl : download
    · rw [if_neg (by simp [hdl])]
      by_cases hlen : text.length < 100
      · rw [if_pos hlen]
        exact ⟨by simp, by simp⟩
      · rw [if_neg hlen]
        by_cases hre : embedChunkRecords docId uid (chunkText text 1000 200) ef
            = []
        · rw [if_pos hre]
          exact ⟨by simp, by simp⟩
        · rw [if_neg hre]
          simp only
          by_cases hins : (insertBatchesStrict 50 inf
              (embedChunkRecords docId uid (chunkText text 1000 200) ef)).2
              = true
          · rw [if_pos hins]
            constructor
            · intro _
              simp only
              rw [insertBatchesStrict] at hins ⊢
              rw [insertBatchesStrictGo_ok 50 inf _ 0 0 hins]
              exact hre
            · intro hp
              simp only at hp
              rw [insertBatchesStrict] at hins hp
              rw [insertBatchesStrictGo_ok 50 inf _ 0 0 hins] at hp
              exact absurd hp hre
          · rw [if_neg hins]
            exact ⟨by simp, by simp⟩
    · rw [if_pos (by simp [hdl])]
      exact ⟨by simp, by simp⟩
  · intro docId uid text dIns iOk
    rw [kanoonIngestDoc]
    by_cases hlen : text.length < 100
    · rw [if_pos hlen]
      simp
    · rw [if_neg hlen]
      by_cases hdi : dIns
      · rw [if_neg (by simp [hdi])]
        by_cases hre : (chunkText text 1000 200).enum.map
            (plainChunkRecord docId uid) = []
        · rw [if_pos hre]
          simp
        · rw [if_neg hre]
          by_cases hio : iOk
          · rw [if_pos hio]
            intro _
            simpa using hre
          · rw [if_neg hio]
            simp
      · rw [if_pos (by simp [hdi])]
        simp
  · intro docId uid url authOk scraped dIns inf inf2
    by_cases h1 : url = ""
    · simp [scrapeLegalSite, h1]
    · by_cases h2 : isAllowedDomain url
      · by_cases h3 : authOk
        · cases scraped with
          | none => simp [scrapeLegalSite, h1, h2, h3]
          | some content =>
            by_cases h4 : content.length < 100
            · simp [scrapeLegalSite, h1, h2, h3, h4]
            · by_cases h5 : dIns
              · by_cases h6 : List.map (plainChunkRecord docId uid)
                    (chunkText content 1000 200).enum = []
                · simp [scrapeLegalSite, h1, h2, h3, h4, h5, h6]
                · simp [scrapeLegalSite, h1, h2, h3, h4, h5, h6]
              · simp [scrapeLegalSite, h1, h2, h3, h4, h5]
        · simp [scrapeLegalSite, h1, h2, h3]
      · simp [scrapeLegalSite, h1, h2]

set_option maxRecDepth 40000 in
/-- Witness for the amended C4 on a failure-free upload run. -/
theorem ingestion_processed_persistence_amended_witness :
    (processDocumentCore 1 7 true cgstExampleText (fun _ => false)
      (fun _ => false)).persisted ≠ [] :=
  (ingestion_processed_persistence_amended.1 1 7 true cgstExampleText
    (fun _ => false) (fun _ => false)).1 (by decide)

set_option maxRecDepth 40000 in
/-- C8: the 120-character CGST example text chunks (at
`targetSize = 1000`, `overlap = 200`) to exactly one chunk with ordinal 0,
and its upload ingestion drives the document status through
`pending -> processing -> processed`. -/
theorem cgst_example_scenario :
    cgstExampleText.length = 120 ∧
    chunkText cgstExampleText 1000 200 = [cgstExampleText] ∧
    (processDocumentCore 1 7 true cgstExampleText (fun _ => false)
      (fun _ => false)).persisted.map (fun r => r.chunk_index) = [0] ∧
    (processDocumentCore 1 7 true cgstExampleText (fun _ => false)
      (fun _ => false)).persisted.length = 1 ∧
    uploadStatusTrace 1 7 true cgstExampleText (fun _ => false)
      (fun _ => false) = ["pending", "processing", "processed"] :=
  ⟨by decide, by decide, by decide, by decide, by decide⟩

set_option maxRecDepth 40000 in
/-- C10 counterexample: `ftp://indiacode.nic.in/act` carries no `http://` or
`https://` scheme, yet it parses inside `isAllowedDomain` (hostname
`indiacode.nic.in` matches the allow-list) and the request proceeds to the
scrape fetch instead of being rejected — refuting the claim that every URL
without an http(s) scheme fails the parse and is rejected. -/
theorem scrape_scheme_url_counterexample :
    isAllowedDomain "ftp://indiacode.nic.in/act" = true ∧
    startsWithJS "ftp://indiacode.nic.in/act" "http://" = false ∧
    startsWithJS "ftp://indiacode.nic.in/act" "https://" = false ∧
    (scrapeLegalSite 1 7 "ftp://indiacode.nic.in/act" true
      (some scrapeContent) true (fun _ => false)).rejected = none ∧
    (scrapeLegalSite 1 7 "ftp://indiacode.nic.in/act" true
      (some scrapeContent) true (fun _ => false)).fetched = true :=
  ⟨by decide, by decide, by decide, by decide, by decide⟩

/-- C10 amended: every URL string that fails the URL parse — in particular
every string with no scheme at all, including bare host forms of
allow-listed domains such as `indiacode.nic.in/...` — is rejected with the
allow-list validation error before any fetch and before any document is
created; URL strings with a non-http(s) scheme, however, may parse and pass
the domain check. -/
theorem schemeless_url_rejected
    (docId uid : Nat) (url : String) (authOk : Bool) (scraped : Option String)
    (dIns : Bool) (inf : Nat → Bool)
    (hne : url ≠ "") (hp : parseURLHostname url = none) :
    isAllowedDomain url = false ∧
    (scrapeLegalSite docId uid url authOk scraped dIns inf).rejected
      = some "Only official government legal sites are allowed for scraping to ensure data accuracy" ∧
    (scrapeLegalSite docId uid url authOk scraped dIns inf).fetched = false ∧
    (scrapeLegalSite docId uid url authOk scraped dIns inf).statusWrites = [] := by
  have hall : isAllowedDomain url = false := by rw [isAllowedDomain, hp]
  refine ⟨hall, ?_, ?_, ?_⟩ <;>
  · rw [scrapeLegalSite.eq_def, if_neg hne, if_pos (by simp [hall])]

/-- Witness for the amended C10 at the bare-host URL. -/
theorem schemeless_url_rejected_witness :
    isAllowedDomain "indiacode.nic.in/act" = false ∧
    (scrapeLegalSite 1 7 "indiacode.nic.in/act" true (some scrapeContent) true
      (fun _ => false)).rejected
      = some "Only official government legal sites are allowed for scraping to ensure data accuracy" ∧
    (scrapeLegalSite 1 7 "indiacode.nic.in/act" true (some scrapeContent) true
      (fun _ => false)).fetched = false ∧
    (scrapeLegalSite 1 7 "indiacode.nic.in/act" true (some scrapeContent) true
      (fun _ => false)).statusWrites = [] :=
  schemeless_url_rejected 1 7 "indiacode.nic.in/act" true (some scrapeContent)
    true (fun _ => false) (by decide) (by decide)


theorem genSuccessBody_sources_tagging (c : Classification) (tq : String)
    (chunks : List DocumentChunkOut) (webs : List String) (resp : String) :
    ((∀ s ∈ (genSuccessBody c tq chunks webs resp).sources,
        s.type = "document") ∨
      (∀ s ∈ (genSuccessBody c tq chunks webs resp).sources, s.type = "web")) ∧
    ((genSuccessBody c tq chunks webs resp).sources = [] →
      (genSuccessBody c tq chunks webs resp).sourcesUsed = 0) := by
  by_cases hc : chunks = []
  · subst hc
    refine ⟨Or.inr ?_, ?_⟩
    · intro s hs
      simp only [genSuccessBody] at hs
      simp only [List.length_nil, gt_iff_lt, Nat.lt_irrefl, if_false] at hs
      rw [List.mem_map] at hs
      obtain ⟨u, _, hu⟩ := hs
      rw [← hu]
      rfl
    · intro hs
      simp only [genSuccessBody] at hs ⊢
      simp only [List.length_nil] at hs ⊢
      simp at hs ⊢
      simp [hs]
  · refine ⟨Or.inl ?_, ?_⟩
    · intro s hs
      simp only [genSuccessBody] at hs
      rw [if_pos (by simpa [List.length_pos] using hc)] at hs
      rw [List.mem_map] at hs
      obtain ⟨u, _, hu⟩ := hs
      rw [← hu]
      rfl
    · intro hs
      simp only [genSuccessBody] at hs
      rw [if_pos (by simpa [List.length_pos] using hc)] at hs
      rw [List.map_eq_nil_iff] at hs
      exact absurd hs hc

theorem generateResponse_success_shape
    (db : List ChunkRow) (docs : List DocRow) (userId : Nat) (query : String)
    (classification : Option Classification)
    (conversationHistory : List ChatMsg)
    (tsMatch : String → ChunkRow → Bool) (orFilter : ChunkRow → Bool)
    (tsErr ilikeErr lovableConfigured firecrawlConfigured : Bool)
    (webFetch : Option (List WebResult)) (aiStatus : Nat)
    (llm : List ChatMsg → Option String) (body : GenBody)
    (h : generateResponse db docs userId query classification
      conversationHistory tsMatch orFilter tsErr ilikeErr lovableConfigured
      firecrawlConfigured webFetch aiStatus llm = .success body) :
    ∃ c chunks webs resp,
      body = genSuccessBody c (trimJS query) chunks webs resp := by
  rw [generateResponse] at h
  by_cases h0 : query = ""
  · rw [if_pos h0] at h; cases h
  · rw [if_neg h0] at h
    by_cases h1 : (trimJS query).length < MIN_QUERY_LENGTH
    · rw [if_pos h1] at h; cases h
    · rw [if_neg h1] at h
      by_cases h2 : (trimJS query).length > MAX_QUERY_LENGTH
      · rw [if_pos h2] at h; cases h
      · rw [if_neg h2] at h
        by_cases h3 : classificationValid classification = true
        · rw [if_neg (by simp [h3])] at h
          by_cases h4 : lovableConfigured
          · rw [if_neg (by simp [h4])] at h
            cases classification with
            | none => simp [classificationValid] at h3
            | some c =>
              simp only at h
              split at h
              · cases h
              · split at h
                · cases h
                · split at h
                  · cases h
                  · split at h
                    · cases h
                    · split at h
                      · cases h
                      · injection h with hb
                        exact ⟨c, _, _, _, hb.symm⟩
          · rw [if_pos (by simp [h4])] at h; cases h
        · rw [if_pos (by simp [h3])] at h; cases h

/-- C7 counterexample: the success-response JSON object carries no
`sourceType` key (its keys are exactly `response`, `classification`,
`query`, `sourcesUsed`, `sources`), as exhibited on a concrete successful
generation — refuting the claim that every successful response carries a
`sourceType` field. -/
theorem sourceType_field_missing_counterexample :
    ("sourceType" ∉ genSuccessBodyKeys) ∧
    generateResponse [] [] 7 "What is GST?" (some gstClassification) []
      (fun _ _ => false) (fun _ => false) false false true true (some []) 200
      (fun _ => some refusalMessage) = .success refusalBody :=
  ⟨by decide, by decide⟩

/-- C7 amended: successful generation responses carry no `sourceType` field;
instead every entry of the `sources` array carries a `type` tag — all
`"document"` when local chunks matched, all `"web"` when only the web
fallback matched — and when neither matched the `sources` array is empty and
`sourcesUsed` is 0. -/
theorem success_sources_tagging
    (db : List ChunkRow) (docs : List DocRow) (userId : Nat) (query : String)
    (classification : Option Classification)
    (conversationHistory : List ChatMsg)
    (tsMatch : String → ChunkRow → Bool) (orFilter : ChunkRow → Bool)
    (tsErr ilikeErr lovableConfigured firecrawlConfigured : Bool)
    (webFetch : Option (List WebResult)) (aiStatus : Nat)
    (llm : List ChatMsg → Option String) (body : GenBody)
    (h : generateResponse db docs userId query classification
      conversationHistory tsMatch orFilter tsErr ilikeErr lovableConfigured
      firecrawlConfigured webFetch aiStatus llm = .success body) :
    "sourceType" ∉ genSuccessBodyKeys ∧
    ((∀ s ∈ body.sources, s.type = "document") ∨
      (∀ s ∈ body.sources, s.type = "web")) ∧
    (body.sources = [] → body.sourcesUsed = 0) := by
  obtain ⟨c, chunks, webs, resp, hb⟩ := generateResponse_success_shape db docs
    userId query classification conversationHistory tsMatch orFilter tsErr
    ilikeErr lovableConfigured firecrawlConfigured webFetch aiStatus llm body h
  subst hb
  exact ⟨by decide, (genSuccessBody_sources_tagging c _ chunks webs resp).1,
    (genSuccessBody_sources_tagging c _ chunks webs resp).2⟩

/-- Witness for the amended C7 at a concrete successful generation. -/
theorem success_sources_tagging_witness :
    "sourceType" ∉ genSuccessBodyKeys ∧
    ((∀ s ∈ refusalBody.sources, s.type = "document") ∨
      (∀ s ∈ refusalBody.sources, s.type = "web")) ∧
    (refusalBody.sources = [] → refusalBody.sourcesUsed = 0) :=
  success_sources_tagging [] [] 7 "What is GST?" (some gstClassification) []
    (fun _ _ => false) (fun _ => false) false false true true (some []) 200
    (fun _ => some refusalMessage) refusalBody (by decide)

end MyAppCompanion
